import Mathlib

/-!
Verification of the fastapi-calculator example service
(`src/examples/fastapi-calculator/app/main.py`): a shallow embedding of the
request/response data model, the five route handlers and the routing and
validation layers, followed by theorems settling the behavioural claims.
-/

namespace Calculator

/-- Modelled from the spec: the host language's 64-bit floating-point values.
We represent a float as a sign bit together with an exact rational magnitude;
this is enough to capture the IEEE-754 facts the handlers rely on, notably
that negative zero is a value distinct from positive zero while comparing
equal to it under the float equality test used by the division guard.
Arithmetic on the model is exact rather than rounded. -/
structure SFloat where
  neg : Bool
  mag : ℚ
  deriving DecidableEq

/-- The rational number a modelled float denotes. -/
def SFloat.val (x : SFloat) : ℚ := if x.neg then -x.mag else x.mag

/-- Pack a rational back into sign-magnitude form (the result of an
arithmetic operation). -/
def SFloat.ofRat (q : ℚ) : SFloat := ⟨decide (q < 0), |q|⟩

/-- Positive zero, the value the literal `0` denotes. -/
def fzero : SFloat := ⟨false, 0⟩

/-- Negative zero: a float value distinct from `fzero` but equal to it under
float equality. -/
def negZero : SFloat := ⟨true, 0⟩

/-- Float equality (`==` of the host language): numerical comparison of the
denoted values, which identifies positive and negative zero. -/
def fbeq (x y : SFloat) : Bool := decide (x.val = y.val)

/-- Float addition. -/
def fadd (x y : SFloat) : SFloat := SFloat.ofRat (x.val + y.val)

/-- Float subtraction. -/
def fsub (x y : SFloat) : SFloat := SFloat.ofRat (x.val - y.val)

/-- Float multiplication. -/
def fmul (x y : SFloat) : SFloat := SFloat.ofRat (x.val * y.val)

/-- Float division.  In the service it is only ever applied to a divisor
that failed the `== 0` test, so the rational division below is genuine. -/
def fdiv (x y : SFloat) : SFloat := SFloat.ofRat (x.val / y.val)

/-- `CalculationRequest` from `app/main.py`: two required numeric fields. -/
structure CalculationRequest where
  a : SFloat
  b : SFloat
  deriving DecidableEq

/-- `CalculationResponse` from `app/main.py`. -/
structure CalculationResponse where
  operation : String
  a : SFloat
  b : SFloat
  result : SFloat
  deriving DecidableEq

/-- The body of an HTTP response produced by the app: a calculation body, the
health payload (the dict with key `status`, modelled by its value), an error
detail (the `HTTPException` body, modelled by its `detail` field), or the
body of the schema-validation error produced by the external layer. -/
inductive ResponseBody where
  | calc (r : CalculationResponse)
  | healthBody (statusMsg : String)
  | detail (msg : String)
  | validationError
  deriving DecidableEq

/-- An HTTP response: status code plus body. -/
structure Response where
  status : Nat
  body : ResponseBody
  deriving DecidableEq

/-- `_make_response` from `app/main.py`. -/
def make_response (operation : String) (payload : CalculationRequest)
    (result : SFloat) : CalculationResponse :=
  ⟨operation, payload.a, payload.b, result⟩

/-- `health` handler: `GET /health` returns the `status: ok` payload. -/
def health : Response := ⟨200, .healthBody "ok"⟩

/-- `add` handler: `POST /calc/add`. -/
def add (payload : CalculationRequest) : Response :=
  ⟨200, .calc (make_response "add" payload (fadd payload.a payload.b))⟩

/-- `subtract` handler: `POST /calc/subtract`. -/
def subtract (payload : CalculationRequest) : Response :=
  ⟨200, .calc (make_response "subtract" payload (fsub payload.a payload.b))⟩

/-- `multiply` handler: `POST /calc/multiply`. -/
def multiply (payload : CalculationRequest) : Response :=
  ⟨200, .calc (make_response "multiply" payload (fmul payload.a payload.b))⟩

/-- `divide` handler: `POST /calc/divide`.  If `payload.b == 0` it raises
`HTTPException(status_code=400, detail="Cannot divide by zero")`, else it
returns the quotient. -/
def divide (payload : CalculationRequest) : Response :=
  if fbeq payload.b fzero then ⟨400, .detail "Cannot divide by zero"⟩
  else ⟨200, .calc (make_response "divide" payload (fdiv payload.a payload.b))⟩

/-- Modelled from the spec: a JSON field value as seen by the external
schema-validation layer.  The numeric parser lives in that external library,
so string fields arrive pre-split by parseability: `numStr` is a string the
layer coerces to the float `x`, `badStr` a string not parseable as a number,
`other` any other JSON value. -/
inductive FieldValue where
  | num (x : SFloat)
  | numStr (x : SFloat)
  | badStr (s : String)
  | other
  deriving DecidableEq

/-- Modelled from the spec: coercion of one optional field to a float by the
schema-validation layer; `none` when the field is missing or not parseable as
a number. -/
def coerceField : Option FieldValue → Option SFloat
  | some (.num x) => some x
  | some (.numStr x) => some x
  | _ => none

/-- Modelled from the spec: the external schema-validation layer decoding a
request body into a `CalculationRequest`, rejecting it when `a` or `b` is
missing or not parseable as a number. -/
def validate (body : List (String × FieldValue)) : Option CalculationRequest :=
  match coerceField (body.lookup "a"), coerceField (body.lookup "b") with
  | some a, some b => some ⟨a, b⟩
  | _, _ => none

/-- An HTTP request to the app. -/
structure HttpRequest where
  method : String
  path : String
  body : List (String × FieldValue)
  deriving DecidableEq

/-- Modelled from the spec: the framework runs the schema-validation layer
before a calculation handler; on failure it answers 422 without invoking the
handler. -/
def dispatch (handler : CalculationRequest → Response)
    (body : List (String × FieldValue)) : Response :=
  match validate body with
  | some payload => handler payload
  | none => ⟨422, .validationError⟩

/-- The app's routing table: the five routes registered on `app` in
`app/main.py`, with the framework's 404 for anything else. -/
def appHandle (req : HttpRequest) : Response :=
  match req.method, req.path with
  | "GET", "/health" => health
  | "POST", "/calc/add" => dispatch add req.body
  | "POST", "/calc/subtract" => dispatch subtract req.body
  | "POST", "/calc/multiply" => dispatch multiply req.body
  | "POST", "/calc/divide" => dispatch divide req.body
  | _, _ => ⟨404, .detail "Not Found"⟩

/-- A server run: the app holds no state, so a run is the per-request
function mapped over the request sequence. -/
def runServer (reqs : List HttpRequest) : List Response := reqs.map appHandle

/-- The four calculation operations. -/
inductive Op where
  | add
  | subtract
  | multiply
  | divide
  deriving DecidableEq

/-- The operation name string each handler writes into its response. -/
def opName : Op → String
  | .add => "add"
  | .subtract => "subtract"
  | .multiply => "multiply"
  | .divide => "divide"

/-- The route path each handler is registered under in `app/main.py`. -/
def opPath : Op → String
  | .add => "/calc/add"
  | .subtract => "/calc/subtract"
  | .multiply => "/calc/multiply"
  | .divide => "/calc/divide"

/-- The handler function bound to each operation. -/
def opHandler : Op → CalculationRequest → Response
  | .add => add
  | .subtract => subtract
  | .multiply => multiply
  | .divide => divide

/-- The arithmetic each operation performs on the two inputs. -/
def evalOp : Op → SFloat → SFloat → SFloat
  | .add => fadd
  | .subtract => fsub
  | .multiply => fmul
  | .divide => fdiv

/-- Modelled from the spec: the in-process test client of
`tests/test_calculator.py`; it posts directly to the app. -/
def testClientPost (path : String) (body : List (String × FieldValue)) :
    Response :=
  appHandle ⟨"POST", path, body⟩

/-- Modelled from the spec: the async HTTP client of
`tests/test_httpx_client.py`, whose transport dispatches to the same
in-process app. -/
def asgiTransportPost (path : String) (body : List (String × FieldValue)) :
    Response :=
  appHandle ⟨"POST", path, body⟩

/-- Concrete float values used by witnesses. -/
def sf1 : SFloat := ⟨false, 1⟩

def sf2 : SFloat := ⟨false, 2⟩

def sf3 : SFloat := ⟨false, 3⟩

def sf4 : SFloat := ⟨false, 4⟩

def sf5 : SFloat := ⟨false, 5⟩

def sfHalf : SFloat := ⟨false, 1/2⟩

/-- Reading back the value of a packed rational. -/
theorem SFloat.ofRat_val (q : ℚ) : (SFloat.ofRat q).val = q := by
  by_cases h : q < 0
  · simp [SFloat.ofRat, SFloat.val, h, abs_of_neg h]
  · simp [SFloat.ofRat, SFloat.val, h, abs_of_nonneg (not_lt.mp h)]

/-- The denoted value of positive zero is the rational zero. -/
theorem fzero_val : fzero.val = 0 := rfl

/-- C1: for every request to the divide operation with `b != 0` (under float
equality), the response has status 200 and result `a / b` under the float
division of the model, whose value is the exact quotient; for every `a`, a
request with `b == 0` yields a 400 response whose detail field equals
"Cannot divide by zero". -/
theorem divide_spec (a b : SFloat) :
    (fbeq b fzero = false →
      divide ⟨a, b⟩ = ⟨200, .calc ⟨"divide", a, b, fdiv a b⟩⟩ ∧
      (fdiv a b).val = a.val / b.val) ∧
    (fbeq b fzero = true →
      divide ⟨a, b⟩ = ⟨400, .detail "Cannot divide by zero"⟩) := by
  constructor
  · intro h
    refine ⟨?_, SFloat.ofRat_val _⟩
    simp [divide, h, make_response]
  · intro h
    simp [divide, h]

/-- Witness for C1 at the concrete inputs 2 / 4 and 2 / 0. -/
theorem divide_spec_witness :
    (divide ⟨sf2, sf4⟩ = ⟨200, .calc ⟨"divide", sf2, sf4, fdiv sf2 sf4⟩⟩ ∧
      (fdiv sf2 sf4).val = sf2.val / sf4.val) ∧
    divide ⟨sf2, fzero⟩ = ⟨400, .detail "Cannot divide by zero"⟩ :=
  ⟨(divide_spec sf2 sf4).1 (by decide), (divide_spec sf2 fzero).2 (by decide)⟩

/-- C2: for all inputs `a` and `b`, the add handler returns result `a + b`,
the subtract handler `a - b` and the multiply handler `a * b`, each under the
model's float arithmetic, whose value is the exact sum, difference and
product respectively. -/
theorem arith_ops_spec (a b : SFloat) :
    (add ⟨a, b⟩ = ⟨200, .calc ⟨"add", a, b, fadd a b⟩⟩ ∧
      (fadd a b).val = a.val + b.val) ∧
    (subtract ⟨a, b⟩ = ⟨200, .calc ⟨"subtract", a, b, fsub a b⟩⟩ ∧
      (fsub a b).val = a.val - b.val) ∧
    (multiply ⟨a, b⟩ = ⟨200, .calc ⟨"multiply", a, b, fmul a b⟩⟩ ∧
      (fmul a b).val = a.val * b.val) :=
  ⟨⟨rfl, SFloat.ofRat_val _⟩, ⟨rfl, SFloat.ofRat_val _⟩,
    ⟨rfl, SFloat.ofRat_val _⟩⟩

/-- C3: for every operation and every request that succeeds (produces a
calculation body), the `a` and `b` fields of the response equal the
request's original `a` and `b`. -/
theorem echo_spec (op : Op) (payload : CalculationRequest) (st : Nat)
    (resp : CalculationResponse)
    (h : opHandler op payload = ⟨st, .calc resp⟩) :
    resp.a = payload.a ∧ resp.b = payload.b := by
  cases op
  case add =>
    simp only [opHandler, add, make_response, Response.mk.injEq,
      ResponseBody.calc.injEq] at h
    obtain ⟨rfl, rfl⟩ := h
    exact ⟨rfl, rfl⟩
  case subtract =>
    simp only [opHandler, subtract, make_response, Response.mk.injEq,
      ResponseBody.calc.injEq] at h
    obtain ⟨rfl, rfl⟩ := h
    exact ⟨rfl, rfl⟩
  case multiply =>
    simp only [opHandler, multiply, make_response, Response.mk.injEq,
      ResponseBody.calc.injEq] at h
    obtain ⟨rfl, rfl⟩ := h
    exact ⟨rfl, rfl⟩
  case divide =>
    simp only [opHandler] at h
    unfold divide at h
    split at h
    · simp at h
    · simp only [make_response, Response.mk.injEq,
        ResponseBody.calc.injEq] at h
      obtain ⟨rfl, rfl⟩ := h
      exact ⟨rfl, rfl⟩

/-- Witness for C3: the add handler on (2, 3) echoes its inputs. -/
theorem echo_spec_witness : sf2 = sf2 ∧ sf3 = sf3 :=
  echo_spec .add ⟨sf2, sf3⟩ 200 ⟨"add", sf2, sf3, fadd sf2 sf3⟩ rfl

/-- C4: the health route takes no input, never fails, and always returns the
fixed `status: ok` payload with status 200, whatever the request body and
independent of any prior requests in the run. -/
theorem health_spec :
    (∀ body, appHandle ⟨"GET", "/health", body⟩ = ⟨200, .healthBody "ok"⟩) ∧
    (∀ hist body,
      (runServer (hist ++ [⟨"GET", "/health", body⟩])).getLast? =
        some ⟨200, .healthBody "ok"⟩) := by
  refine ⟨fun body => rfl, fun hist body => ?_⟩
  simp only [runServer, List.map_append, List.map_cons, List.map_nil,
    List.getLast?_append_cons]
  rfl

/-- C5: every successful (calculation-body) response has status 200 and
consists exactly of the operation name of the invoked handler — one of
"add", "subtract", "multiply", "divide" — the two echoed inputs and the
operation's numeric result; and each route path dispatches a validated
payload to the handler of its own operation. -/
theorem success_shape_spec :
    (∀ op payload st resp, opHandler op payload = ⟨st, .calc resp⟩ →
      st = 200 ∧
      resp = ⟨opName op, payload.a, payload.b,
        evalOp op payload.a payload.b⟩ ∧
      opName op ∈ ["add", "subtract", "multiply", "divide"]) ∧
    (∀ op body payload, validate body = some payload →
      appHandle ⟨"POST", opPath op, body⟩ = opHandler op payload) := by
  constructor
  · intro op payload st resp h
    cases op
    case add =>
      simp only [opHandler, add, make_response, Response.mk.injEq,
        ResponseBody.calc.injEq] at h
      obtain ⟨rfl, rfl⟩ := h
      exact ⟨rfl, rfl, by simp [opName]⟩
    case subtract =>
      simp only [opHandler, subtract, make_response, Response.mk.injEq,
        ResponseBody.calc.injEq] at h
      obtain ⟨rfl, rfl⟩ := h
      exact ⟨rfl, rfl, by simp [opName]⟩
    case multiply =>
      simp only [opHandler, multiply, make_response, Response.mk.injEq,
        ResponseBody.calc.injEq] at h
      obtain ⟨rfl, rfl⟩ := h
      exact ⟨rfl, rfl, by simp [opName]⟩
    case divide =>
      simp only [opHandler] at h
      unfold divide at h
      split at h
      · simp at h
      · simp only [make_response, Response.mk.injEq,
          ResponseBody.calc.injEq] at h
        obtain ⟨rfl, rfl⟩ := h
        exact ⟨rfl, rfl, by simp [opName]⟩
  · intro op body payload h
    cases op
    case add =>
      show dispatch add body = add payload
      simp [dispatch, h]
    case subtract =>
      show dispatch subtract body = subtract payload
      simp [dispatch, h]
    case multiply =>
      show dispatch multiply body = multiply payload
      simp [dispatch, h]
    case divide =>
      show dispatch divide body = divide payload
      simp [dispatch, h]

/-- Witness for C5 at the add endpoint on (2, 3). -/
theorem success_shape_spec_witness :
    (200 = 200 ∧
      (⟨"add", sf2, sf3, fadd sf2 sf3⟩ : CalculationResponse) =
        ⟨opName .add, sf2, sf3, evalOp .add sf2 sf3⟩ ∧
      opName .add ∈ ["add", "subtract", "multiply", "divide"]) ∧
    appHandle ⟨"POST", opPath .add, [("a", .num sf2), ("b", .num sf3)]⟩ =
      opHandler .add ⟨sf2, sf3⟩ :=
  ⟨success_shape_spec.1 .add ⟨sf2, sf3⟩ 200 ⟨"add", sf2, sf3, fadd sf2 sf3⟩
      rfl,
    success_shape_spec.2 .add [("a", .num sf2), ("b", .num sf3)] ⟨sf2, sf3⟩
      rfl⟩

/-- C6: for every calculation endpoint, a request body in which `a` or `b`
is missing or not coercible to a number yields the 422 validation-error
response produced by the schema layer, and no calculation handler is invoked
(no handler can even produce the validation-error body). -/
theorem validation_spec :
    (∀ op body,
      (coerceField (body.lookup "a") = none ∨
        coerceField (body.lookup "b") = none) →
      appHandle ⟨"POST", opPath op, body⟩ = ⟨422, .validationError⟩) ∧
    (∀ op payload, (opHandler op payload).body ≠ .validationError) := by
  constructor
  · intro op body h
    have hv : validate body = none := by
      rcases h with h | h
      · simp [validate, h]
      · cases ha : coerceField (body.lookup "a") <;> simp [validate, ha, h]
    cases op
    case add =>
      show dispatch add body = _
      simp [dispatch, hv]
    case subtract =>
      show dispatch subtract body = _
      simp [dispatch, hv]
    case multiply =>
      show dispatch multiply body = _
      simp [dispatch, hv]
    case divide =>
      show dispatch divide body = _
      simp [dispatch, hv]
  · intro op payload
    cases op
    case add => simp [opHandler, add]
    case subtract => simp [opHandler, subtract]
    case multiply => simp [opHandler, multiply]
    case divide =>
      show (divide payload).body ≠ _
      unfold divide
      split <;> simp

/-- Witness for C6: a non-numeric string in field `a` is rejected with 422
at the add endpoint. -/
theorem validation_spec_witness :
    appHandle ⟨"POST", opPath .add,
        [("a", .badStr "abc"), ("b", .num sf3)]⟩ =
      ⟨422, .validationError⟩ :=
  validation_spec.1 .add [("a", .badStr "abc"), ("b", .num sf3)] (by decide)

/-- C7: the app is deterministic and stateless: the response to a request is
a function of that request alone, so after any two histories of prior
requests the same request draws the identical response. -/
theorem stateless_spec (h1 h2 : List HttpRequest) (r : HttpRequest) :
    (runServer (h1 ++ [r])).getLast? = some (appHandle r) ∧
    (runServer (h1 ++ [r])).getLast? = (runServer (h2 ++ [r])).getLast? := by
  constructor
  · simp only [runServer, List.map_append, List.map_cons, List.map_nil,
      List.getLast?_append_cons]
    rfl
  · simp only [runServer, List.map_append, List.map_cons, List.map_nil,
      List.getLast?_append_cons]

/-- C8: the two client-invocation styles used by the tests reach the same
handler and agree on every input; concretely, add on (2, 3) returns 200 with
result 5 and add on (1, 4) returns 200 with result 5. -/
theorem client_equiv_spec :
    (∀ path body, testClientPost path body = asgiTransportPost path body) ∧
    testClientPost "/calc/add" [("a", .num sf2), ("b", .num sf3)] =
      ⟨200, .calc ⟨"add", sf2, sf3, sf5⟩⟩ ∧
    asgiTransportPost "/calc/add" [("a", .num sf1), ("b", .num sf4)] =
      ⟨200, .calc ⟨"add", sf1, sf4, sf5⟩⟩ := by
  refine ⟨fun path body => rfl, ?_, ?_⟩
  · show add ⟨sf2, sf3⟩ = ⟨200, .calc ⟨"add", sf2, sf3, sf5⟩⟩
    have h5 : fadd sf2 sf3 = sf5 := by
      norm_num [fadd, SFloat.ofRat, SFloat.val, sf2, sf3, sf5]
    simp [add, make_response, h5]
  · show add ⟨sf1, sf4⟩ = ⟨200, .calc ⟨"add", sf1, sf4, sf5⟩⟩
    have h5 : fadd sf1 sf4 = sf5 := by
      norm_num [fadd, SFloat.ofRat, SFloat.val, sf1, sf4, sf5]
    simp [add, make_response, h5]

/-- C9: negative zero is a float value distinct from positive zero yet equal
to it under the float equality used by the division guard, so for every `a`
the divide operation on divisor negative zero also answers 400 with detail
"Cannot divide by zero". -/
theorem negzero_divide_spec :
    negZero ≠ fzero ∧ fbeq negZero fzero = true ∧
    ∀ a, divide ⟨a, negZero⟩ = ⟨400, .detail "Cannot divide by zero"⟩ := by
  refine ⟨by decide, by decide, fun a => ?_⟩
  simp [divide, (by decide : fbeq negZero fzero = true)]

/-- C10: the quotient is only ever computed under the guard: whenever the
divide handler returns a calculation body, the divisor failed the `== 0`
test, its denoted value is a nonzero rational, and the result is the genuine
float quotient. -/
theorem no_zero_division_spec (payload : CalculationRequest) (st : Nat)
    (resp : CalculationResponse)
    (h : divide payload = ⟨st, .calc resp⟩) :
    fbeq payload.b fzero = false ∧ payload.b.val ≠ 0 ∧
    resp.result = fdiv payload.a payload.b := by
  unfold divide at h
  split at h
  case isTrue hb => simp at h
  case isFalse hb =>
    simp only [make_response, Response.mk.injEq,
      ResponseBody.calc.injEq] at h
    obtain ⟨rfl, rfl⟩ := h
    refine ⟨by simpa using hb, ?_, rfl⟩
    intro h0
    exact hb (by simp [fbeq, fzero_val, h0])

/-- Witness for C10: dividing 2 by 4 goes through the guarded quotient. -/
theorem no_zero_division_spec_witness :
    fbeq sf4 fzero = false ∧ sf4.val ≠ 0 ∧
    fdiv sf2 sf4 = fdiv sf2 sf4 :=
  no_zero_division_spec ⟨sf2, sf4⟩ 200 ⟨"divide", sf2, sf4, fdiv sf2 sf4⟩ rfl

end Calculator
